import Mathlib

/-!
Shallow embedding of the daraja_one payment-callback service
(`api/views.py`, `api/google_sheets.py`, `api/serializers.py`, `api/sms.py`).
External I/O (Google Sheets reads/writes, SMS sends) is modelled by explicit
oracle values of type `Except Unit _`: `.error ()` stands for a raised
exception on that remote call, `.ok v` for a successful call returning `v`.
-/

namespace Daraja

/-- One predetermined account: `(AccountNumber, TeamName, [PhoneNumbers])`
as produced by `_fetch_accounts_from_sheet` / `parse_predetermined_accounts`. -/
structure Account where
  number : String
  team : String
  phones : List String
deriving DecidableEq, Repr

/-- `get_predetermined_accounts` (google_sheets.py:105-146), parametrised by the
already-fetched sheet rows and the environment-configured accounts.
When the sheet list is non-empty it is primary and environment accounts whose
number is not among the sheet account numbers are appended in order;
otherwise the environment list (possibly empty) is used. -/
def get_predetermined_accounts (sheet_accounts env_accounts : List Account) : List Account :=
  if sheet_accounts ≠ [] then
    let sheet_account_numbers := sheet_accounts.map (·.number)
    env_accounts.foldl
      (fun merged env_acc =>
        if sheet_account_numbers.contains env_acc.number then merged
        else merged ++ [env_acc])
      sheet_accounts
  else if env_accounts ≠ [] then
    env_accounts
  else
    []

/-- `is_valid_account` (google_sheets.py:149-154): empty account number is
rejected outright, otherwise membership of the merged directory's numbers. -/
def is_valid_account (account_number : String)
    (sheet_accounts env_accounts : List Account) : Bool :=
  if account_number = "" then false
  else
    let accounts := get_predetermined_accounts sheet_accounts env_accounts
    (accounts.map (·.number)).contains account_number

/-! ## Duplicate detector (`check_transaction_exists`, google_sheets.py:290-337) -/

/-- One sheet (ledger partition) as seen by the duplicate check: its title from
the spreadsheet metadata (`None` possible) and the result of reading column A,
where each row is a list of cell strings. -/
structure SheetView where
  title : Option String
  colA : Except Unit (List (List String))
deriving Repr

/-- `str(v[0]) if v else ''` applied to one row of column A. -/
def firstCell : List String → String
  | [] => ""
  | x :: _ => x

/-- The per-sheet scan loop of `check_transaction_exists`: a sheet with no
title is skipped, a read error on a sheet is caught and skipped (`continue`),
and the first sheet whose column A contains the id returns `true`. -/
def scanSheets (trans_id : String) : List SheetView → Bool
  | [] => false
  | s :: rest =>
    match s.title with
    | none => scanSheets trans_id rest
    | some _ =>
      match s.colA with
      | .error _ => scanSheets trans_id rest
      | .ok values =>
        if (values.map firstCell).contains trans_id then true
        else scanSheets trans_id rest

/-- The environment of one `check_transaction_exists` call: the effective
spreadsheet id (`none` when unconfigured), the service-initialisation outcome,
and the metadata fetch outcome listing the sheets. -/
structure LedgerEnv where
  spreadsheetId : Option String
  serviceInit : Except Unit Unit
  sheetsMeta : Except Unit (List SheetView)
deriving Repr

/-- `check_transaction_exists` (google_sheets.py:290-337): `false` when no
spreadsheet id is configured, when the Sheets service fails to initialise, or
when the metadata fetch raises; otherwise the per-sheet scan. -/
def check_transaction_exists (trans_id : String) (env : LedgerEnv) : Bool :=
  match env.spreadsheetId with
  | none => false
  | some _ =>
    match env.serviceInit with
    | .error _ => false
    | .ok _ =>
      match env.sheetsMeta with
      | .error _ => false
      | .ok sheets => scanSheets trans_id sheets

/-! ## Ledger writer (`write_payment_to_sheet`, google_sheets.py:198-274) -/

/-- `_sanitize_sheet_name` (google_sheets.py:157-158): each of the characters
`\ / ? * [ ]` is replaced by `_` (the chained `str.replace` calls are
equivalent to a character-wise map since every pattern is one character and
the replacement `_` matches no later pattern). -/
def sanitize_sheet_name (name : String) : String :=
  name.map fun c =>
    if c = '\\' ∨ c = '/' ∨ c = '?' ∨ c = '*' ∨ c = '[' ∨ c = ']' then '_' else c

/-- The spreadsheet's mutable content: one entry per existing sheet
(partition), keyed by sheet title, holding its rows in order. -/
structure SheetsState where
  partitions : List (String × List (List String))
deriving DecidableEq, Repr

/-- Outcomes of the remote calls one `write_payment_to_sheet` invocation can
make, in call order. `.error ()` means that remote call raises. -/
structure WriteEffects where
  serviceInit : Except Unit Unit
  metaFetch : Except Unit Unit
  createSheet : Except Unit Unit
  headerWrite : Except Unit Unit
  appendRow : Except Unit Unit
deriving Repr

/-- The canonical payment record produced by `_normalize_daraja_data`
(views.py:84-92). The `amount` display string is carried as produced by the
normalizer; `rawAmount` is the parsed decimal amount. -/
structure Payment where
  transId : String
  time : String
  amount : String
  name : String
  phone : String
  accountNumber : String
  rawAmount : ℚ
deriving DecidableEq, Repr

/-- `_ensure_sheet_exists` (google_sheets.py:174-195). The metadata fetch is
NOT wrapped in try/except in the source, so its failure propagates as an
exception (`.error`). Result: `(exists, is_new, state)`. -/
def ensure_sheet_exists (fx : WriteEffects) (st : SheetsState) (sheet_name : String) :
    Except Unit (Bool × Bool × SheetsState) := do
  match fx.metaFetch with
  | .error _ => .error ()
  | .ok _ =>
    let names := st.partitions.map (·.1)
    if names.contains sheet_name then
      .ok (true, false, st)
    else
      match fx.createSheet with
      | .ok _ => .ok (true, true, { partitions := st.partitions ++ [(sheet_name, [])] })
      | .error _ => .ok (false, false, st)

/-- Append `rows` to the partition named `name` (Sheets `values().append`). -/
def appendToPartition (st : SheetsState) (name : String) (row : List String) : SheetsState :=
  { partitions := st.partitions.map fun p =>
      if p.1 = name then (p.1, p.2 ++ [row]) else p }

/-- Write `row` as the header of partition `name` (Sheets `values().update`
on `A1:D1` of a freshly created, empty sheet). -/
def setHeaderRow (st : SheetsState) (name : String) (row : List String) : SheetsState :=
  { partitions := st.partitions.map fun p =>
      if p.1 = name then (p.1, [row]) else p }

/-- `write_payment_to_sheet` (google_sheets.py:198-274). Returns the success
flag and the new spreadsheet state; `.error ()` models an exception escaping
the function (only the unguarded metadata fetch inside
`_ensure_sheet_exists` can do that). -/
def write_payment_to_sheet (payment : Payment) (spreadsheet_id global_sheet_id : Option String)
    (sheet_accounts env_accounts : List Account) (fx : WriteEffects) (st : SheetsState) :
    Except Unit (Bool × SheetsState) :=
  let effective_id := match spreadsheet_id with
    | some i => some i
    | none => global_sheet_id
  match effective_id with
  | none => .ok (false, st)
  | some _ =>
    let account_number := payment.accountNumber
    if ¬ is_valid_account account_number sheet_accounts env_accounts then
      .ok (false, st)
    else
      match fx.serviceInit with
      | .error _ => .ok (false, st)
      | .ok _ =>
        let safe_account := sanitize_sheet_name account_number
        match ensure_sheet_exists fx st safe_account with
        | .error _ => .error ()
        | .ok (sheet_exists, is_new, st₁) =>
          if ¬ sheet_exists then .ok (false, st₁)
          else
            let st₂ :=
              if is_new then
                match fx.headerWrite with
                | .ok _ => setHeaderRow st₁ safe_account
                    ["Transaction ID", "Time", "Amount", "Name"]
                | .error _ => st₁
              else st₁
            let row := [payment.transId, payment.time, payment.amount, payment.name]
            match fx.appendRow with
            | .ok _ => .ok (true, appendToPartition st₂ safe_account row)
            | .error _ => .ok (false, st₂)

/-! ## Serializer (`DarajaC2BCallbackSerializer`, serializers.py) -/

/-- The inbound JSON payload, restricted to the fields the pipeline reads.
`none` = field absent; `TransAmount` is `none` when absent or not a decimal,
otherwise the parsed decimal value. -/
structure Payload where
  transID : Option String
  transTime : Option String
  transAmount : Option ℚ
  billRefNumber : Option String
  msisdn : Option String
  msisdnSim : Option String
  firstName : Option String
  middleName : Option String
  lastName : Option String
deriving DecidableEq, Repr

/-- The serializer's `validated_data` after the `validate` hook normalised
`Msisdn` into `MSISDN`; optional fields default to the empty string as the
downstream `validated_data.get(..., '')` reads do. -/
structure ValidatedData where
  transID : String
  transTime : String
  transAmount : ℚ
  billRefNumber : String
  msisdn : String
  firstName : String
  middleName : String
  lastName : String
deriving DecidableEq, Repr

/-- Field errors of one serializer run, as `(field, message)` pairs. -/
def serializerErrors (p : Payload) : List (String × String) :=
  (match p.transID with
   | none => [("TransID", "This field is required.")]
   | some s => if s = "" then [("TransID", "This field may not be blank.")] else []) ++
  (match p.transAmount with
   | none => [("TransAmount", "This field is required.")]
   | some a => if a ≤ 0 then [("TransAmount", "TransAmount must be a positive number.")] else []) ++
  (match p.billRefNumber with
   | none => [("BillRefNumber", "This field is required.")]
   | some s => if s = "" then [("BillRefNumber", "This field may not be blank.")] else [])

/-- `DarajaC2BCallbackSerializer` run on a payload: the required fields are
`TransID`, `TransAmount` (strictly positive, per `validate_TransAmount`) and
`BillRefNumber`; `Msisdn` is folded into `MSISDN` when only the simulation
name is present. -/
def runSerializer (p : Payload) : Except (List (String × String)) ValidatedData :=
  match serializerErrors p with
  | [] =>
    .ok {
      transID := p.transID.getD "",
      transTime := p.transTime.getD "",
      transAmount := p.transAmount.getD 0,
      billRefNumber := p.billRefNumber.getD "",
      msisdn := match p.msisdn with
        | some m => m
        | none => p.msisdnSim.getD "",
      firstName := p.firstName.getD "",
      middleName := p.middleName.getD "",
      lastName := p.lastName.getD "" }
  | errs => .error errs

/-! ## Timestamp parsing and rendering (`datetime.strptime`/`strftime`) -/

/-- A parsed wall-clock timestamp. -/
structure DateTime where
  year : Nat
  month : Nat
  day : Nat
  hour : Nat
  minute : Nat
  second : Nat
deriving DecidableEq, Repr

/-- Gregorian leap-year test. -/
def isLeap (y : Nat) : Bool := (y % 4 = 0 && y % 100 ≠ 0) || y % 400 = 0

/-- Days in a month of the Gregorian calendar. -/
def daysInMonth (y m : Nat) : Nat :=
  if m = 2 then (if isLeap y then 29 else 28)
  else if m = 4 ∨ m = 6 ∨ m = 9 ∨ m = 11 then 30
  else 31

/-- Decimal value of a digit string. -/
def digitsToNat (s : String) : Nat :=
  s.toList.foldl (fun a c => a * 10 + (c.toNat - '0'.toNat)) 0

/-- `datetime.strptime(s, '%Y%m%d%H%M%S')` as a total function: succeeds
exactly on 14-digit strings denoting a valid calendar date and time of day
(year 1..9999, as `datetime` requires). -/
def strptimeYmdHMS (s : String) : Option DateTime :=
  if s.length = 14 && s.toList.all Char.isDigit then
    let y := digitsToNat (s.take 4)
    let mo := digitsToNat ((s.drop 4).take 2)
    let d := digitsToNat ((s.drop 6).take 2)
    let h := digitsToNat ((s.drop 8).take 2)
    let mi := digitsToNat ((s.drop 10).take 2)
    let sec := digitsToNat ((s.drop 12).take 2)
    if 1 ≤ y && y ≤ 9999 && 1 ≤ mo && mo ≤ 12 && 1 ≤ d && d ≤ daysInMonth y mo
        && h ≤ 23 && mi ≤ 59 && sec ≤ 59 then
      some ⟨y, mo, d, h, mi, sec⟩
    else none
  else none

/-- Zero-pad a number to two digits. -/
def pad2 (n : Nat) : String :=
  if n < 10 then "0" ++ toString n else toString n

/-- Zero-pad a number to four digits. -/
def pad4 (n : Nat) : String :=
  if n < 10 then "000" ++ toString n
  else if n < 100 then "00" ++ toString n
  else if n < 1000 then "0" ++ toString n
  else toString n

/-- `dt.strftime('%d/%m/%Y %H:%M:%S')` (views.py:68). -/
def strftimeDMY (dt : DateTime) : String :=
  pad2 dt.day ++ "/" ++ pad2 dt.month ++ "/" ++ pad4 dt.year ++ " " ++
    pad2 dt.hour ++ ":" ++ pad2 dt.minute ++ ":" ++ pad2 dt.second

/-- The transaction-time branch of `_normalize_daraja_data` (views.py:63-70):
when the string has at least 14 characters, its first 14 characters are
parsed; on success the rendered date replaces it, on `ValueError` (or a
shorter string) the raw value passes through. -/
def formatTransTime (trans_time : String) : String :=
  if trans_time ≠ "" ∧ trans_time.length ≥ 14 then
    match strptimeYmdHMS (trans_time.take 14) with
    | some dt => strftimeDMY dt
    | none => trans_time
  else trans_time

/-! ## Payload normalizer (`_normalize_daraja_data`, views.py:28-92) -/

/-- Python `str.strip()` on the name fields: leading and trailing whitespace
removed. -/
def pyStrip (s : String) : String :=
  (((s.toList.dropWhile Char.isWhitespace).reverse.dropWhile Char.isWhitespace).reverse).asString

/-- The phone-formatting branch (views.py:48-61): values longer than 20
characters are masked; otherwise leading `0`s then leading `+`s are stripped
and a `+254` country prefix is ensured. -/
def formatPhone (phone : String) : String :=
  if phone ≠ "" then
    if phone.length > 20 then (phone.take 12) ++ "... (masked)"
    else
      let p := ((phone.toList.dropWhile (· = '0')).dropWhile (· = '+')).asString
      if ¬ p.startsWith "254" then
        (if p.length ≥ 9 then "+254" ++ p else p)
      else "+" ++ p
  else ""

/-- The BillRefNumber display branch (views.py:72-76). -/
def formatBillRefDisplay (bill_ref : String) : String :=
  if bill_ref ≠ "" ∧ bill_ref.length > 20 then (bill_ref.take 12) ++ "..."
  else bill_ref

/-- The name-combining line (views.py:79):
`' '.join(filter(None, [first_name, middle_name, last_name])) or 'N/A'`,
on the already-stripped parts. -/
def combineName (first middle last : String) : String :=
  let joined := " ".intercalate ([first, middle, last].filter (· ≠ ""))
  if joined = "" then "N/A" else joined

/-- Digit grouping for the integer part of `f"{x:,.2f}"`. -/
def groupDigits (s : String) : String :=
  let rec go : List Char → Nat → List Char → List Char
    | [], _, acc => acc
    | c :: rest, k, acc =>
      if k = 3 then go (c :: rest) 0 (',' :: acc)
      else go rest (k + 1) (c :: acc)
  (go s.toList.reverse 0 []).asString

/-- `f"KES {trans_amount:,.2f}"` (views.py:82) modelled over exact rationals:
round to cents (ties away from zero) and render with comma grouping. -/
def formatKES (q : ℚ) : String :=
  let cents : Int := (q * 100 + 1 / 2).floor
  let sign := if cents < 0 then "-" else ""
  let c := cents.natAbs
  "KES " ++ sign ++ groupDigits (toString (c / 100)) ++ "." ++ pad2 (c % 100)

/-- `_normalize_daraja_data` (views.py:28-92) on the serializer's validated
data. -/
def normalize_daraja_data (vd : ValidatedData) : Payment :=
  let first_name := pyStrip vd.firstName
  let middle_name := pyStrip vd.middleName
  let last_name := pyStrip vd.lastName
  { transId := vd.transID,
    time := formatTransTime vd.transTime,
    amount := formatKES vd.transAmount,
    name := combineName first_name middle_name last_name,
    phone := formatPhone vd.msisdn,
    accountNumber := vd.billRefNumber,
    rawAmount := vd.transAmount }

/-! ## Notification dispatcher (`notify_team_via_sms`, google_sheets.py:346-422) -/

/-- `_format_transaction_time` (google_sheets.py:425-449): strings shorter
than 14 characters pass through; otherwise the WHOLE string is parsed with
`strptime('%Y%m%d%H%M%S')` (so any length other than exactly 14 fails and
passes through) and rendered as `%-m/%-d/%y at %I:%M %p` with every
occurrence of `" 0"` collapsed to `" "`. -/
def format_transaction_time (time_str : String) : String :=
  if time_str.length < 14 then time_str
  else
    match strptimeYmdHMS time_str with
    | none => time_str
    | some dt =>
      let hour12 := if dt.hour % 12 = 0 then 12 else dt.hour % 12
      let ampm := if dt.hour < 12 then "AM" else "PM"
      let rendered := toString dt.month ++ "/" ++ toString dt.day ++ "/" ++ pad2 (dt.year % 100)
        ++ " at " ++ pad2 hour12 ++ ":" ++ pad2 dt.minute ++ " " ++ ampm
      rendered.replace " 0" " "

/-- `float(amount)`-with-fallback of google_sheets.py:395-398: the payment's
`amount` field is the display string, which `float()` cannot parse, so the
model carries the parse outcome as an oracle input. -/
def amountFloatOrZero (parsed : Option ℚ) : ℚ := parsed.getD 0

/-- `f"Ksh{amount_float:.2f}"` (google_sheets.py:399), no digit grouping. -/
def formatKsh (q : ℚ) : String :=
  let cents : Int := (q * 100 + 1 / 2).floor
  let sign := if cents < 0 then "-" else ""
  let c := cents.natAbs
  "Ksh" ++ sign ++ toString (c / 100) ++ "." ++ pad2 (c % 100)

/-- The confirmation message of google_sheets.py:402-405. -/
def buildSmsMessage (payment : Payment) (account_number : String) (amountParsed : Option ℚ) :
    String :=
  payment.transId ++ " Confirmed. on " ++ format_transaction_time payment.time ++ " "
    ++ formatKsh (amountFloatOrZero amountParsed) ++ " received from " ++ payment.name ++ " "
    ++ payment.phone ++ ". Account Number " ++ account_number

/-- Environment of one `notify_team_via_sms` call: the `SMS_ENABLED` toggle,
the two directory sources, the `float(amount)` parse outcome, and one
`send_sms` outcome per phone (`.error ()` = the send raised). -/
structure NotifyEnv where
  smsEnabled : Bool
  sheet_accounts : List Account
  env_accounts : List Account
  amountParsed : Option ℚ
  sendResult : String → Except Unit Bool

/-- `notify_team_via_sms` (google_sheets.py:346-422). Returns the `all_sent`
flag together with the list of phones to which a send was attempted, in
order. Disabled SMS, an empty account number, or an unresolved account each
return `false` with no attempts; otherwise every phone of the resolved
account is attempted (a failure or exception marks `all_sent := false` and
the loop continues). -/
def notify_team_via_sms (payment : Payment) (env : NotifyEnv) : Bool × List String :=
  if ¬ env.smsEnabled then (false, [])
  else
    let account_number := payment.accountNumber
    if account_number = "" then (false, [])
    else
      let accounts := get_predetermined_accounts env.sheet_accounts env.env_accounts
      match accounts.find? (fun acc => acc.number = account_number) with
      | none => (false, [])
      | some acc =>
        let message := buildSmsMessage payment account_number env.amountParsed
        let all_sent := acc.phones.all fun phone =>
          match env.sendResult phone with
          | .ok true => true
          | .ok false => false
          | .error _ => false
        let _ := message
        (all_sent, acc.phones)

/-! ## Callback controller (`daraja_c2b_callback`, views.py:103-169) -/

/-- The two-field gateway response (`_daraja_response`, views.py:95-100). -/
structure DarajaResponse where
  resultCode : Nat
  resultDesc : String
deriving DecidableEq, Repr

/-- One inbound request: the JSON parse outcome of its body. -/
structure Request where
  body : Except Unit Payload

/-- The external world one `daraja_c2b_callback` invocation interacts with:
the configured spreadsheet id, the duplicate-check environment, the two
directory sources, and the write-call effects and spreadsheet state. -/
structure World where
  globalSheetId : Option String
  ledger : LedgerEnv
  sheet_accounts : List Account
  env_accounts : List Account
  writeFx : WriteEffects
  sheetsState : SheetsState

/-- What one controller invocation did: its response, the spreadsheet state
it left behind, and whether it invoked the ledger writer
(`write_payment_to_sheet`) and the notification dispatcher
(`notify_team_via_sms`). -/
structure ControllerTrace where
  response : DarajaResponse
  finalState : SheetsState
  writeInvoked : Bool
  notifyInvoked : Bool
deriving Repr

/-- `'; '.join(f"{k}: {v[0]}" ...)` over serializer errors (views.py:133). -/
def joinErrors (errs : List (String × String)) : String :=
  "; ".intercalate (errs.map fun e => e.1 ++ ": " ++ e.2)

/-- `daraja_c2b_callback` (views.py:103-169): parse → serializer validation →
duplicate check → account authorization → synchronous ledger write inside
try/except (outcome logged, never surfaced) → `Accepted`. The notification
dispatcher is nowhere invoked in this view. -/
def daraja_c2b_callback (req : Request) (w : World) : ControllerTrace :=
  match req.body with
  | .error _ =>
    ⟨⟨1, "Rejected: Invalid JSON"⟩, w.sheetsState, false, false⟩
  | .ok payload =>
    match runSerializer payload with
    | .error errs =>
      ⟨⟨1, "Rejected: " ++ joinErrors errs⟩, w.sheetsState, false, false⟩
    | .ok vd =>
      let bill_ref := vd.billRefNumber
      let trans_id := vd.transID
      if check_transaction_exists trans_id w.ledger then
        ⟨⟨1, "Rejected: Duplicate transaction"⟩, w.sheetsState, false, false⟩
      else if ¬ is_valid_account bill_ref w.sheet_accounts w.env_accounts then
        ⟨⟨1, "Rejected: Invalid account"⟩, w.sheetsState, false, false⟩
      else
        let payment := normalize_daraja_data vd
        let st' := match write_payment_to_sheet payment w.globalSheetId w.globalSheetId
            w.sheet_accounts w.env_accounts w.writeFx w.sheetsState with
          | .ok (_, st₁) => st₁
          | .error _ => w.sheetsState
        ⟨⟨0, "Accepted"⟩, st', true, false⟩

/-- `daraja_validation_endpoint` (views.py:172-179): responds immediately,
reading neither the request body nor any directory. -/
def daraja_validation_endpoint (_req : Request) (_w : World) : DarajaResponse :=
  ⟨0, "Validation successful"⟩

/-! ## Spec-side definitions (for refinement comparison only) -/

/-- One step of Python-style `str.title()` over ASCII text: an alphabetic
character is uppercased when the previous character was not alphabetic and
lowercased otherwise. -/
def pyTitleGo : Bool → List Char → List Char
  | _, [] => []
  | prevAlpha, c :: rest =>
    (if c.isAlpha then (if prevAlpha then c.toLower else c.toUpper) else c)
      :: pyTitleGo c.isAlpha rest

/-- Python-style title-casing of a string. -/
def pyTitle (s : String) : String := (pyTitleGo false s.toList).asString

/-- The payer display name as the spec's words describe it: the non-empty
(stripped) name parts joined with a single space and then title-cased.
Written from the spec sentence, to be compared with the source's
`combineName`. -/
def specTitleCasedName (first middle last : String) : String :=
  pyTitle (" ".intercalate ([pyStrip first, pyStrip middle, pyStrip last].filter (· ≠ "")))

/-- A sheet view whose column A read succeeded. -/
def readOk (s : SheetView) : Bool :=
  match s.colA with
  | .ok _ => true
  | .error _ => false

/-! ## Helper lemmas -/

theorem append_ne_empty_left (x y : String) (h : x ≠ "") : x ++ y ≠ "" := by
  intro hc
  apply h
  have hd : (x ++ y).data = ([] : List Char) := by rw [hc]
  rw [String.data_append] at hd
  rcases List.append_eq_nil.mp hd with ⟨hx, _⟩
  exact String.ext hx

theorem intercalate_go_ne_empty (s : String) (as : List String) :
    ∀ acc : String, acc ≠ "" → String.intercalate.go acc s as ≠ "" := by
  induction as with
  | nil => intro acc h; exact h
  | cons a as ih =>
    intro acc h
    exact ih (acc ++ s ++ a) (append_ne_empty_left _ _ (append_ne_empty_left _ _ h))

theorem intercalate_ne_empty (p : String) (ps : List String) (hp : p ≠ "") :
    " ".intercalate (p :: ps) ≠ "" :=
  intercalate_go_ne_empty " " ps p hp

/-- The merge loop of `get_predetermined_accounts` appends exactly the
accounts failing the membership test, in order. -/
theorem foldl_skip_or_append (P : Account → Bool) (env : List Account) :
    ∀ init : List Account,
      env.foldl (fun merged e => if P e then merged else merged ++ [e]) init
        = init ++ env.filter (fun e => ! P e) := by
  induction env with
  | nil => intro init; simp
  | cons e rest ih =>
    intro init
    by_cases h : P e = true <;>
      simp [List.foldl_cons, List.filter_cons, h, ih, List.append_assoc]

/-- `combineName` in spec shape: `N/A` exactly when no part survives the
non-empty filter, the single-space join otherwise. -/
theorem combineName_eq (a b c : String) :
    combineName a b c =
      (if ([a, b, c].filter (· ≠ "")) = [] then "N/A"
       else " ".intercalate ([a, b, c].filter (· ≠ ""))) := by
  unfold combineName
  cases h : [a, b, c].filter (· ≠ "") with
  | nil => simp [h, String.intercalate]
  | cons p ps =>
    have hp : p ≠ "" := by
      have hmem : p ∈ [a, b, c].filter (· ≠ "") := by rw [h]; exact List.mem_cons_self p ps
      exact of_decide_eq_true (List.mem_filter.mp hmem).2
    simp [h, intercalate_ne_empty p ps hp]

/-! ## Concrete fixtures used by witnesses and counterexamples -/

/-- A directory account as the sandbox environment configures it. -/
def acct600000 : Account := ⟨"600000", "Sandbox Team", ["0711000111", "0722000222"]⟩

/-- A second directory account present only in the environment source. -/
def acctB : Account := ⟨"B01", "Team B", ["0700111222"]⟩

/-- A well-formed callback payload. -/
def payloadOk : Payload :=
  { transID := some "X1", transTime := some "20250112120000",
    transAmount := some 10, billRefNumber := some "600000",
    msisdn := none, msisdnSim := some "254712345678",
    firstName := some "john", middleName := none, lastName := some "doe" }

/-- The validated data `payloadOk` serializes to. -/
def vdOk : ValidatedData :=
  { transID := "X1", transTime := "20250112120000", transAmount := 10,
    billRefNumber := "600000", msisdn := "254712345678",
    firstName := "john", middleName := "", lastName := "doe" }

/-- A ledger whose partition `600000` already holds transaction `X1`. -/
def ledgerWithX1 : LedgerEnv :=
  ⟨some "SHEET", .ok (), .ok [⟨some "600000", .ok [["Transaction ID"], ["X1"]]⟩]⟩

/-- A ledger environment with no spreadsheet configured. -/
def ledgerOff : LedgerEnv := ⟨none, .ok (), .ok []⟩

/-- Write effects in which every remote call fails. -/
def fxAllFail : WriteEffects := ⟨.error (), .error (), .error (), .error (), .error ()⟩

/-- An empty spreadsheet. -/
def stEmpty : SheetsState := ⟨[]⟩

/-- A world in which `X1` is already settled. -/
def worldDup : World := ⟨some "SHEET", ledgerWithX1, [], [acct600000], fxAllFail, stEmpty⟩

/-- A world accepting fresh payments for account `600000`, with a failing
ledger writer. -/
def worldOk : World := ⟨some "SHEET", ledgerOff, [], [acct600000], fxAllFail, stEmpty⟩

/-- An empty world: nothing configured. -/
def worldEmpty : World := ⟨none, ledgerOff, [], [], fxAllFail, stEmpty⟩

/-- The well-formed request carrying `payloadOk`. -/
def reqOk : Request := ⟨.ok payloadOk⟩

/-- `payloadOk` redirected at an account absent from every directory. -/
def payloadUnknownAcct : Payload :=
  { payloadOk with billRefNumber := some "999999" }

/-- A normalized payment for an account absent from every directory. -/
def payUnknown : Payment :=
  ⟨"X9", "12/01/2025 12:00:00", "KES 10.00", "john doe", "+254712345678", "999999", 10⟩

/-! ## Claim theorems -/

/-- C1: for every callback whose transaction id the duplicate check reports
as already present in the ledger, the controller returns the rejected result
with description `Rejected: Duplicate transaction`, never invokes the ledger
writer in that invocation, and leaves the spreadsheet untouched. -/
theorem c1_duplicate_suppression (req : Request) (w : World) (p : Payload)
    (vd : ValidatedData) (hb : req.body = .ok p) (hs : runSerializer p = .ok vd)
    (hdup : check_transaction_exists vd.transID w.ledger = true) :
    (daraja_c2b_callback req w).response = ⟨1, "Rejected: Duplicate transaction"⟩ ∧
    (daraja_c2b_callback req w).writeInvoked = false ∧
    (daraja_c2b_callback req w).finalState = w.sheetsState := by
  simp [daraja_c2b_callback, hb, hs, hdup]

/-- Witness for C1: the duplicate `X1` payload against a ledger already
holding `X1` is rejected as a duplicate without a write. -/
theorem c1_witness :
    (daraja_c2b_callback reqOk worldDup).response = ⟨1, "Rejected: Duplicate transaction"⟩ ∧
    (daraja_c2b_callback reqOk worldDup).writeInvoked = false ∧
    (daraja_c2b_callback reqOk worldDup).finalState = worldDup.sheetsState :=
  c1_duplicate_suppression reqOk worldDup payloadOk vdOk rfl rfl (by decide)

/-- C2: a payload that passes validation, the duplicate check and
authorization is answered `Accepted` (ResultCode 0), and the response is the
same for every ledger-write outcome — reported failure and raised exception
included. -/
theorem c2_accept_despite_write_failure (req : Request) (w : World) (p : Payload)
    (vd : ValidatedData) (hb : req.body = .ok p) (hs : runSerializer p = .ok vd)
    (hdup : check_transaction_exists vd.transID w.ledger = false)
    (hval : is_valid_account vd.billRefNumber w.sheet_accounts w.env_accounts = true) :
    (daraja_c2b_callback req w).response = ⟨0, "Accepted"⟩ ∧
    ∀ fx st, (daraja_c2b_callback req
        { w with writeFx := fx, sheetsState := st }).response = ⟨0, "Accepted"⟩ := by
  refine ⟨?_, fun fx st => ?_⟩ <;> simp [daraja_c2b_callback, hb, hs, hdup, hval]

/-- Witness for C2: a fresh, authorized payment is accepted although every
write-side remote call fails. -/
theorem c2_witness :
    (daraja_c2b_callback reqOk worldOk).response = ⟨0, "Accepted"⟩ :=
  (c2_accept_despite_write_failure reqOk worldOk payloadOk vdOk rfl rfl rfl (by decide)).1

/-- C3: the effective directory is the remote (sheet) list with every
environment account whose number is absent from the remote list appended; an
empty remote fetch falls back to exactly the environment list; with both
sources empty the directory is empty and authorization fails closed for
every account number. -/
theorem c3_directory_merge (sheet env : List Account) :
    (get_predetermined_accounts sheet env
        = sheet ++ env.filter (fun e => ! (sheet.map Account.number).contains e.number)) ∧
    (sheet = [] → get_predetermined_accounts sheet env = env) ∧
    (sheet = [] → env = [] →
      get_predetermined_accounts sheet env = [] ∧
      ∀ n, is_valid_account n sheet env = false) := by
  have hmain : get_predetermined_accounts sheet env
      = sheet ++ env.filter (fun e => ! (sheet.map Account.number).contains e.number) := by
    unfold get_predetermined_accounts
    by_cases hs : sheet = []
    · subst hs
      by_cases he : env = []
      · subst he; simp
      · simp [he, List.filter_eq_self]
    · simp only [ne_eq, hs, not_false_eq_true, if_pos]
      exact foldl_skip_or_append _ env sheet
  refine ⟨hmain, ?_, ?_⟩
  · intro hs
    subst hs
    rw [hmain]
    simp [List.filter_eq_self]
  · intro hs he
    subst hs; subst he
    refine ⟨by rw [hmain]; rfl, fun n => ?_⟩
    unfold is_valid_account
    by_cases hn : n = "" <;> simp [hn, get_predetermined_accounts]

/-- Witness for C3: account `B01`, present only in the environment source, is
appended after the sheet's account; with both sources empty, account
`600000` is not authorized. -/
theorem c3_witness :
    get_predetermined_accounts [acct600000] [acct600000, acctB] = [acct600000, acctB] ∧
    is_valid_account "600000" [] [] = false := by
  constructor
  · rw [(c3_directory_merge [acct600000] [acct600000, acctB]).1]; decide
  · exact ((c3_directory_merge [] []).2.2 rfl rfl).2 "600000"

/-- C7: a fault while consulting the ledger degrades the duplicate check to
`not found`: an unconfigured spreadsheet, a failed service initialisation or
a failed metadata fetch each yield `false` (the check is a total boolean
function, so no fault propagates), and a per-partition read error makes the
scan behave exactly as if the faulted partitions were absent. -/
theorem c7_duplicate_check_degrades (t : String) (env : LedgerEnv) :
    ((env.spreadsheetId = none ∨ env.serviceInit = .error () ∨ env.sheetsMeta = .error ()) →
      check_transaction_exists t env = false) ∧
    (∀ sheets, scanSheets t sheets = scanSheets t (sheets.filter readOk)) := by
  constructor
  · rcases env with ⟨sid, si, sm⟩
    rintro (h | h | h) <;> subst h
    · rfl
    · cases sid <;> rfl
    · cases sid
      · rfl
      · cases si
        · rfl
        · rfl
  · intro sheets
    induction sheets with
    | nil => rfl
    | cons s rest ih =>
      rcases s with ⟨title, colA⟩
      cases title <;> cases colA <;>
        simp [scanSheets, readOk, List.filter_cons, ih]

/-- Witness for C7: with no spreadsheet configured the duplicate check
reports `not found`. -/
theorem c7_witness : check_transaction_exists "X1" ledgerOff = false :=
  (c7_duplicate_check_degrades "X1" ledgerOff).1 (Or.inl rfl)

/-- C10: the ledger writer re-checks authorization itself: for every payment
whose account number fails `is_valid_account` against the merged directory
(the empty account number included), `write_payment_to_sheet` returns `false`
and leaves the spreadsheet untouched — no partition is created and no row is
appended — whatever the spreadsheet ids, write effects and prior state. -/
theorem c10_write_rechecks_account (payment : Payment) (sid gid : Option String)
    (sa ea : List Account) (fx : WriteEffects) (st : SheetsState)
    (h : is_valid_account payment.accountNumber sa ea = false) :
    write_payment_to_sheet payment sid gid sa ea fx st = .ok (false, st) := by
  unfold write_payment_to_sheet
  cases sid <;> cases gid <;> simp [h]

/-- Witness for C10: a payment for unknown account `999999` is refused by the
writer without touching the empty spreadsheet. -/
theorem c10_witness :
    write_payment_to_sheet payUnknown (some "SHEET") (some "SHEET") [] [acct600000]
      fxAllFail stEmpty = .ok (false, stEmpty) :=
  c10_write_rechecks_account payUnknown (some "SHEET") (some "SHEET") [] [acct600000]
    fxAllFail stEmpty (by decide)

/-- C4 counterexample: with every directory empty, account `999999` is not
authorized, yet the pre-validation endpoint answers ResultCode 0
(`Validation successful`) — it does not return the rejected result the claim
requires for an unknown account. -/
theorem c4_counterexample :
    is_valid_account "999999" [] [] = false ∧
    daraja_validation_endpoint ⟨.ok payloadUnknownAcct⟩ worldEmpty
      = ⟨0, "Validation successful"⟩ ∧
    (daraja_validation_endpoint ⟨.ok payloadUnknownAcct⟩ worldEmpty).resultCode ≠ 1 :=
  ⟨by decide, rfl, by decide⟩

/-- C4 amended: the pre-validation entry point performs no step of the
pipeline at all — it unconditionally returns ResultCode 0 with description
`Validation successful`, independent of the request body and of the account
directory. -/
theorem c4_amended (req : Request) (w : World) :
    daraja_validation_endpoint req w = ⟨0, "Validation successful"⟩ := rfl

/-- C5 counterexample: a callback that reaches the Accepted outcome in which
the controller never invoked the notification dispatcher. -/
theorem c5_counterexample :
    (daraja_c2b_callback reqOk worldOk).response = ⟨0, "Accepted"⟩ ∧
    (daraja_c2b_callback reqOk worldOk).notifyInvoked = false :=
  ⟨rfl, rfl⟩

/-- C5 amended: the callback controller never invokes the notification
dispatcher — on every path, the Accepted one included, `notify_team_via_sms`
is not called (the dispatcher exists in the code base but has no caller in
the controller). -/
theorem c5_amended (req : Request) (w : World) :
    (daraja_c2b_callback req w).notifyInvoked = false := by
  unfold daraja_c2b_callback
  rcases req with ⟨body⟩
  rcases body with _ | p
  · rfl
  · cases h : runSerializer p with
    | error errs => simp [h]
    | ok vd =>
      by_cases hd : check_transaction_exists vd.transID w.ledger <;>
        by_cases hv : is_valid_account vd.billRefNumber w.sheet_accounts w.env_accounts = true <;>
        simp [h, hd, hv]

/-- C8 counterexample: for first name `john` and last name `doe` the
normalizer produces `john doe`, while the spec's words (joined then
title-cased) give `John Doe` — the source applies no title-casing. -/
theorem c8_counterexample :
    (normalize_daraja_data vdOk).name = "john doe" ∧
    specTitleCasedName vdOk.firstName vdOk.middleName vdOk.lastName = "John Doe" ∧
    (normalize_daraja_data vdOk).name
      ≠ specTitleCasedName vdOk.firstName vdOk.middleName vdOk.lastName :=
  ⟨by decide, by decide, by decide⟩

/-- C8 amended: the payer display name is the non-empty stripped name parts
joined with a single space, with no case transformation, and `N/A` when all
parts are empty. -/
theorem c8_amended (vd : ValidatedData) :
    (normalize_daraja_data vd).name =
      (if ([pyStrip vd.firstName, pyStrip vd.middleName, pyStrip vd.lastName].filter
            (· ≠ "")) = []
       then "N/A"
       else " ".intercalate
         ([pyStrip vd.firstName, pyStrip vd.middleName, pyStrip vd.lastName].filter
           (· ≠ ""))) :=
  combineName_eq _ _ _

/-- C9 counterexample: the 16-character timestamp `20250112120000AB` is not
14 characters long, yet the normalizer formats its 14-character prefix
instead of passing the raw string through unchanged. -/
theorem c9_counterexample :
    ("20250112120000AB".length ≠ 14) ∧
    formatTransTime "20250112120000AB" = "12/01/2025 12:00:00" ∧
    formatTransTime "20250112120000AB" ≠ "20250112120000AB" :=
  ⟨by decide, by decide, by decide⟩

/-- C9 amended: timestamps of length at least 14 have their first 14
characters parsed as `YYYYMMDDHHMMSS` and are rendered on success; shorter
timestamps, and ones whose 14-character prefix fails to parse, pass through
unchanged; and the controller's accept/reject response never depends on the
timestamp field, so a malformed timestamp never causes a rejection. -/
theorem c9_timestamp_handling (t : String) :
    (t.length < 14 → formatTransTime t = t) ∧
    (t.length ≥ 14 → strptimeYmdHMS (t.take 14) = none → formatTransTime t = t) ∧
    (∀ dt, t.length ≥ 14 → strptimeYmdHMS (t.take 14) = some dt →
      formatTransTime t = strftimeDMY dt) ∧
    (∀ (w : World) (p : Payload) (t₁ t₂ : Option String),
      (daraja_c2b_callback ⟨.ok { p with transTime := t₁ }⟩ w).response
        = (daraja_c2b_callback ⟨.ok { p with transTime := t₂ }⟩ w).response) := by
  refine ⟨?_, ?_, ?_, ?_⟩
  · intro hlen
    unfold formatTransTime
    simp [Nat.not_le.mpr hlen]
  · intro hlen hparse
    unfold formatTransTime
    by_cases ht : t = ""
    · simp [ht]
    · simp [ht, hlen, hparse]
  · intro dt hlen hparse
    unfold formatTransTime
    have ht : t ≠ "" := by
      intro hc
      subst hc
      simp at hlen
    simp [ht, hlen, hparse]
  · intro w p t₁ t₂
    have hse : ∀ u : Option String, serializerErrors { p with transTime := u }
        = serializerErrors p := fun _ => rfl
    simp only [daraja_c2b_callback, runSerializer]
    rw [hse t₁, hse t₂]
    cases h : serializerErrors p with
    | nil =>
      by_cases hd : check_transaction_exists (p.transID.getD "") w.ledger <;>
        by_cases hv : is_valid_account (p.billRefNumber.getD "")
          w.sheet_accounts w.env_accounts = true <;>
        simp [hd, hv]
    | cons e rest => rfl

/-- Witness for C9: a 5-character timestamp passes through, a 16-character
one is rendered from its 14-character prefix. -/
theorem c9_witness :
    formatTransTime "short" = "short" ∧
    formatTransTime "20250112120000AB" = strftimeDMY ⟨2025, 1, 12, 12, 0, 0⟩ :=
  ⟨(c9_timestamp_handling "short").1 (by decide),
   (c9_timestamp_handling "20250112120000AB").2.2.1 ⟨2025, 1, 12, 12, 0, 0⟩
     (by decide) (by decide)⟩

/-- C6: with SMS enabled, the dispatcher returns `false` with no send attempt
when the record's account cannot be resolved in the merged directory; when it
resolves (to a non-empty account number, as every directory-parsed account
has), every contact phone is attempted independently of the other contacts'
outcomes, and the result is `true` exactly when every contact's send
returned success. -/
theorem c6_notify_contract (payment : Payment) (env : NotifyEnv)
    (hen : env.smsEnabled = true) :
    ((get_predetermined_accounts env.sheet_accounts env.env_accounts).find?
        (fun a => a.number = payment.accountNumber) = none →
      notify_team_via_sms payment env = (false, [])) ∧
    (∀ acc, payment.accountNumber ≠ "" →
      (get_predetermined_accounts env.sheet_accounts env.env_accounts).find?
        (fun a => a.number = payment.accountNumber) = some acc →
      (notify_team_via_sms payment env).2 = acc.phones ∧
      ((notify_team_via_sms payment env).1 = true ↔
        ∀ ph ∈ acc.phones, env.sendResult ph = .ok true)) := by
  constructor
  · intro hna
    unfold notify_team_via_sms
    by_cases hn : payment.accountNumber = "" <;> simp [hen, hn, hna]
  · intro acc hn hfind
    unfold notify_team_via_sms
    simp only [hen, Bool.not_true, Bool.false_eq_true, if_false, hn, hfind,
      not_true, ite_false]
    constructor
    · trivial
    · rw [List.all_eq_true]
      constructor
      · intro hall ph hmem
        have := hall ph hmem
        cases hres : env.sendResult ph with
        | error e => rw [hres] at this; simp at this
        | ok b =>
          cases b with
          | true => rfl
          | false => rw [hres] at this; simp at this
      · intro hall ph hmem
        rw [hall ph hmem]

/-- Witness for C6: account `600000` resolves, both team phones are
attempted, and with both sends succeeding the dispatcher reports `true`. -/
theorem c6_witness :
    (notify_team_via_sms
        ⟨"X1", "20250112120000", "KES 10.00", "john doe", "+254712345678", "600000", 10⟩
        ⟨true, [], [acct600000], some 10, fun _ => .ok true⟩).2
      = ["0711000111", "0722000222"] ∧
    (notify_team_via_sms
        ⟨"X1", "20250112120000", "KES 10.00", "john doe", "+254712345678", "600000", 10⟩
        ⟨true, [], [acct600000], some 10, fun _ => .ok true⟩).1 = true := by
  have h := (c6_notify_contract
    ⟨"X1", "20250112120000", "KES 10.00", "john doe", "+254712345678", "600000", 10⟩
    ⟨true, [], [acct600000], some 10, fun _ => .ok true⟩ rfl).2 acct600000
    (by decide) (by rfl)
  exact ⟨h.1, h.2.mpr (fun ph _ => rfl)⟩

end Daraja
